import Mathlib

/-
Verification of the `messages` email module (`messages/email_.py`).

The Python class `Email` is embedded shallowly:
  * `Email.__init__`  →  `Messages.emailInit` (with helpers `resolveServer`,
    `resolvePassword`, `resolveSave` for the three fallible resolution steps,
    executed in source order: server derivation, password lookup, save).
  * `Email.get_server`      →  `Messages.get_server`
  * `Email.list_to_string`  →  `Messages.list_to_string`
  * `Email.generate_email` / `add_header` / `add_body` / `add_attachments`
       →  `Messages.generate_email` etc., over an explicit MIME document.
  * `Email.get_session` / `get_ssl` / `get_tls`  →  transport-action traces.
  * `Email.send`  →  `Messages.send`, returning the final object state, the
    propagated error (if any) and the transport trace.

Python dynamic values are made explicit: `to`/`cc`/`bcc` may be `None`, a
string or a list (`Recip`); `attachments` likewise (`Attach`); Python
truthiness is modelled by the `truthy` functions; exceptions become
`PyError` values; the filesystem, the config store and the keyring are
explicit parameters.
-/

namespace Messages

/-- Exception classes that the source can raise, abstracted by kind. -/
inductive PyError where
  | indexError
  | typeError
  | unboundLocalError
  | ioError
  | transportError
  | authError
  | smtpError
deriving DecidableEq, Repr

/-- A Python recipient argument: `None`, a single string, or a list of strings. -/
inductive Recip where
  | none
  | str (s : String)
  | list (l : List String)
deriving DecidableEq, Repr

/-- A Python attachments argument / attribute: `None`, a single path string,
or a list of path strings. -/
inductive Attach where
  | none
  | str (s : String)
  | list (l : List String)
deriving DecidableEq, Repr

/-- Python truthiness of a recipient value (`if self.to:` etc.). -/
def Recip.truthy : Recip → Bool
  | Recip.none => false
  | Recip.str s => s != ""
  | Recip.list l => !l.isEmpty

/-- Python truthiness of an attachments value (`if self.attachments:`). -/
def Attach.truthy : Attach → Bool
  | Attach.none => false
  | Attach.str s => s != ""
  | Attach.list l => !l.isEmpty

/-- Python truthiness of an optional string (`server or ...`, `password or ...`). -/
def optStrTruthy : Option String → Bool
  | Option.none => false
  | Option.some s => s != ""

/-- Is the attachments attribute list-shaped? -/
def Attach.isList : Attach → Bool
  | Attach.list _ => true
  | _ => false

/-- The `'email'` section of the profile store `cfg.data['email']`:
the three keys the source reads (`from_`, `server`, `port`). -/
structure StoreData where
  from_ : Option String
  server : Option String
  port : Option Int
deriving DecidableEq, Repr

/-- A part of the MIME multipart document: a `MIMEText` body part or a
`MIMEApplication` attachment part (raw bytes plus the advertised filename). -/
inductive MimePart where
  | text (payload : String)
  | application (content : List Nat) (filename : String)
deriving DecidableEq, Repr

/-- The `MIMEMultipart` document: header fields and attached parts. -/
structure MimeDoc where
  headers : List (String × String)
  parts : List MimePart
deriving DecidableEq, Repr

/-- The state of an `Email` object. (`to` is a reserved token in Lean, so the
`to` attribute is named `to_` here, like the source's own `from_` spelling.) -/
structure EmailState where
  from_ : String
  to_ : Recip
  cc : Recip
  bcc : Recip
  server : String
  port : Int
  password : String
  subject : String
  body : String
  attachments : Attach
  message : Option MimeDoc
  sent_messages : List String
deriving DecidableEq, Repr

/-- `self.attachments = attachments or []`: a falsy argument (None, empty
string, empty list) becomes `[]`; any other value is stored as given. -/
def attachInit : Attach → Attach
  | Attach.none => Attach.list []
  | Attach.str s => if s = "" then Attach.list [] else Attach.str s
  | Attach.list l => if l.isEmpty then Attach.list [] else Attach.list l

/-- Python `str.split(sep)` for a single-character separator, on the
character list of the string: keeps empty fields, `[] ↦ [[]]`. -/
def splitChar (sep : Char) : List Char → List (List Char)
  | [] => [[]]
  | c :: rest =>
    if c = sep then [] :: splitChar sep rest
    else
      match splitChar sep rest with
      | [] => [[c]]
      | h :: t => (c :: h) :: t

/-- `Email.get_server`: `'smtp.' + address.split('@')[1]`; the index access
raises `IndexError` when the address contains no `'@'`. -/
def get_server (address : String) : Except PyError String :=
  match splitChar '@' address.toList with
  | _ :: domain :: _ => Except.ok ("smtp." ++ String.mk domain)
  | _ => Except.error PyError.indexError

/-- `Email.list_to_string`: a falsy recipient gives `None` (implicit return),
a list is joined with `', '`, a non-empty string is returned as is. -/
def list_to_string : Recip → Option String
  | Recip.none => Option.none
  | Recip.str s => if s = "" then Option.none else Option.some s
  | Recip.list l =>
      if l.isEmpty then Option.none else Option.some (String.intercalate ", " l)

/-- Server resolution in `__init__`:
`self.server = server or cfg.data['email'].get('server', self.get_server(self.from_))`.
The default argument of `.get` is evaluated eagerly, so `get_server` runs (and
can raise) whenever the explicit argument is falsy, even if the store holds a
server value. -/
def resolveServer (server : Option String) (storeServer : Option String)
    (from_r : String) : Except PyError String :=
  if optStrTruthy server = true then Except.ok (server.getD "")
  else
    match get_server from_r with
    | Except.error e => Except.error e
    | Except.ok derived => Except.ok (storeServer.getD derived)

/-- Password resolution in `__init__`:
`self.password = password or cfg.pwd.get(name + '_' + msg, None)` followed by
the `getpass` prompt when still `None`. When `name` is `None`, the key
concatenation `name + '_' + msg` raises `TypeError`. -/
def resolvePassword (password : Option String) (name : Option String)
    (pwdStore : String → Option String) (promptResult : String) :
    Except PyError String :=
  if optStrTruthy password = true then Except.ok (password.getD "")
  else
    match name with
    | Option.none => Except.error PyError.typeError
    | Option.some n =>
      match pwdStore (n ++ "_email") with
      | Option.some p => Except.ok p
      | Option.none => Except.ok promptResult

/-- The `if save:` block of `__init__`: writes the resolved `from_`, `server`,
`port` into the profile section and the resolved password into the keyring
under `name + '_' + msg` — which again raises `TypeError` for `name = None`. -/
def resolveSave (save : Bool) (name : Option String) (from_r server_r : String)
    (port_r : Int) (password_r : String) (store : StoreData)
    (pwdStore : String → Option String) :
    Except PyError (StoreData × (String → Option String)) :=
  if save = true then
    match name with
    | Option.none => Except.error PyError.typeError
    | Option.some n =>
      Except.ok (⟨Option.some from_r, Option.some server_r, Option.some port_r⟩,
        fun k => if k = n ++ "_email" then Option.some password_r else pwdStore k)
  else Except.ok (store, pwdStore)

/-- `Email.__init__` with a profile store: resolves `from_` (stored value
first, then argument), `server` (argument first, then stored, then derived),
`port` (stored value first, then argument), the password chain, and the
optional save write-back; initializes `attachments`, `message` and
`sent_messages`. Returns the object state plus the updated store/keyring. -/
def emailInit (from_ : String) (to_ : Recip) (server : Option String) (port : Int)
    (password : Option String) (cc : Recip) (bcc : Recip) (subject : String)
    (body : String) (attachments : Attach) (name : Option String) (save : Bool)
    (store : StoreData) (pwdStore : String → Option String)
    (promptResult : String) :
    Except PyError (EmailState × StoreData × (String → Option String)) :=
  match resolveServer server store.server (store.from_.getD from_) with
  | Except.error e => Except.error e
  | Except.ok server_r =>
    match resolvePassword password name pwdStore promptResult with
    | Except.error e => Except.error e
    | Except.ok password_r =>
      match resolveSave save name (store.from_.getD from_) server_r
          (store.port.getD port) password_r store pwdStore with
      | Except.error e => Except.error e
      | Except.ok (store2, pwd2) =>
        Except.ok (⟨store.from_.getD from_, to_, cc, bcc, server_r,
          store.port.getD port, password_r, subject, body,
          attachInit attachments, Option.none, []⟩, store2, pwd2)

/-- Project the resolved `port` out of a construction result. -/
def initPort (r : Except PyError (EmailState × StoreData × (String → Option String))) :
    Option Int :=
  match r with
  | Except.ok x => Option.some x.1.port
  | Except.error _ => Option.none

/-- Project the `attachments` attribute out of a construction result. -/
def initAttachField
    (r : Except PyError (EmailState × StoreData × (String → Option String))) :
    Option Attach :=
  match r with
  | Except.ok x => Option.some x.1.attachments
  | Except.error _ => Option.none

/-- The attachment items the `for item in self.attachments:` loop ranges over. -/
def attachItems : Attach → List String
  | Attach.none => []
  | Attach.str s => [s]
  | Attach.list l => l

/-- `if isinstance(self.attachments, str): self.attachments = [self.attachments]`. -/
def attachNormalize : Attach → Attach
  | Attach.str s => Attach.list [s]
  | a => a

/-- The attachment loop of `add_attachments`: each item is read in full from
the filesystem (`open(item, 'rb').read()`), wrapped as an application part
carrying the literal path as filename, and attached; a missing/unreadable
file aborts the loop with an IO error, keeping the parts attached so far. -/
def attachLoop (fs : String → Option (List Nat)) :
    List String → MimeDoc → Nat → MimeDoc × Nat × Option PyError
  | [], doc, n => (doc, n, Option.none)
  | item :: rest, doc, n =>
    match fs item with
    | Option.none => (doc, n, Option.some PyError.ioError)
    | Option.some content =>
      attachLoop fs rest
        ⟨doc.headers, doc.parts ++ [MimePart.application content item]⟩ (n + 1)

/-- `Email.add_header`: sets the `From` and `Subject` header fields. -/
def add_header (st : EmailState) (doc : MimeDoc) : MimeDoc :=
  ⟨doc.headers ++ [("From", st.from_), ("Subject", st.subject)], doc.parts⟩

/-- `Email.add_body`: attaches one plain-text part with payload `self.body`,
only when the body is non-empty. -/
def add_body (st : EmailState) (doc : MimeDoc) : MimeDoc :=
  if st.body = "" then doc
  else ⟨doc.headers, doc.parts ++ [MimePart.text st.body]⟩

/-- `Email.add_attachments`: when the attachments attribute is truthy, a bare
string is first normalized to a one-element list, then every item is read and
attached; returns the (possibly normalized) attribute, the grown document,
`num_attached`, and the error of a failed file read, if any. -/
def add_attachments (fs : String → Option (List Nat)) (att : Attach)
    (doc : MimeDoc) : Attach × MimeDoc × Nat × Option PyError :=
  if att.truthy = true then
    let att2 := attachNormalize att
    (att2, attachLoop fs (attachItems att2) doc 0)
  else (att, doc, 0, Option.none)

/-- Replace the attachments attribute and the composed message of a state. -/
def EmailState.withCompose (st : EmailState) (att : Attach) (doc : MimeDoc) :
    EmailState :=
  ⟨st.from_, st.to_, st.cc, st.bcc, st.server, st.port, st.password, st.subject,
   st.body, att, Option.some doc, st.sent_messages⟩

/-- `Email.generate_email`: build a fresh `MIMEMultipart()`, add header, body
and attachments; the partially built document is stored in `self.message`
even when an attachment read fails. -/
def generate_email (fs : String → Option (List Nat)) (st : EmailState) :
    EmailState × Option PyError :=
  let doc2 := add_body st (add_header st ⟨[], []⟩)
  let r := add_attachments fs st.attachments doc2
  (st.withCompose r.1 r.2.1, r.2.2.2)

/-- A raw Python value appearing in the envelope recipients list: `send`
appends either a single address string or a whole list of addresses. -/
inductive PyVal where
  | str (s : String)
  | list (l : List String)
deriving DecidableEq, Repr

/-- One observable SMTP-session step performed by the transport layer. -/
inductive TransportAction where
  | connectSSL (server : String) (port : Int)
  | connectPlain (server : String) (port : Int)
  | ehlo
  | starttls
  | login (user : String) (pwd : String)
  | sendmail (sender : String) (recipients : List PyVal) (msg : String)
  | quit
deriving DecidableEq, Repr

/-- The environment a send runs in: the filesystem, and whether connection,
authentication and transmission succeed (the failure injection points). -/
structure Env where
  fs : String → Option (List Nat)
  connectOk : Bool
  loginOk : Bool
  sendOk : Bool

/-- `Email.get_ssl`: `smtplib.SMTP_SSL(self.server, self.port)`. -/
def get_ssl (st : EmailState) : List TransportAction :=
  [TransportAction.connectSSL st.server st.port]

/-- `Email.get_tls`: plain `smtplib.SMTP`, then `ehlo`, `starttls`, `ehlo`. -/
def get_tls (st : EmailState) : List TransportAction :=
  [TransportAction.connectPlain st.server st.port, TransportAction.ehlo,
   TransportAction.starttls, TransportAction.ehlo]

/-- `Email.get_session`: dispatch on the port, then `session.login(from_,
password)`. For a port other than 465/587 no session was bound, so the login
line raises `UnboundLocalError` without any transport step. The result is the
trace of transport steps performed plus the propagated error, if any. -/
def get_session (env : Env) (st : EmailState) :
    List TransportAction × Option PyError :=
  if st.port = 465 then
    if env.connectOk = true then
      if env.loginOk = true then
        (get_ssl st ++ [TransportAction.login st.from_ st.password], Option.none)
      else (get_ssl st ++ [TransportAction.login st.from_ st.password],
            Option.some PyError.authError)
    else (get_ssl st, Option.some PyError.transportError)
  else if st.port = 587 then
    if env.connectOk = true then
      if env.loginOk = true then
        (get_tls st ++ [TransportAction.login st.from_ st.password], Option.none)
      else (get_tls st ++ [TransportAction.login st.from_ st.password],
            Option.some PyError.authError)
    else ([TransportAction.connectPlain st.server st.port],
          Option.some PyError.transportError)
  else ([], Option.some PyError.unboundLocalError)

/-- `repr(self)`, without the memory address. -/
def emailRepr (_st : EmailState) : String := "<messages.Email class>"

/-- A crude `message.as_string()` serialization; nothing depends on its shape. -/
def MimePart.asString : MimePart → String
  | MimePart.text payload => payload
  | MimePart.application _ filename => filename

/-- Serialization of the whole document. -/
def MimeDoc.asString (doc : MimeDoc) : String :=
  String.intercalate "\n"
    (doc.headers.map (fun h => h.1 ++ ": " ++ h.2) ++ doc.parts.map MimePart.asString)

/-- The To/Cc/Bcc header fields `send` sets, in source order, each joined by
`list_to_string` and only set when the role is truthy. -/
def recipHeaders (st : EmailState) : List (String × String) :=
  (if st.to_.truthy = true then [("To", (list_to_string st.to_).getD "")] else []) ++
  (if st.cc.truthy = true then [("Cc", (list_to_string st.cc).getD "")] else []) ++
  (if st.bcc.truthy = true then [("Bcc", (list_to_string st.bcc).getD "")] else [])

/-- A raw recipient value as appended to the `recipients` accumulator. -/
def Recip.toVal : Recip → PyVal
  | Recip.none => PyVal.str ""
  | Recip.str s => PyVal.str s
  | Recip.list l => PyVal.list l

/-- The `recipients` list handed to `session.sendmail`: `send` appends the
raw `self.to` / `self.cc` / `self.bcc` values (each a string or a list) for
every truthy role — it does not flatten them. -/
def envelopeRecipients (st : EmailState) : List PyVal :=
  (if st.to_.truthy = true then [st.to_.toVal] else []) ++
  (if st.cc.truthy = true then [st.cc.toVal] else []) ++
  (if st.bcc.truthy = true then [st.bcc.toVal] else [])

/-- The outcome of `Email.send`: the final object state (Python mutations
survive a raised exception), the propagated error if any, and the transport
trace. -/
structure SendResult where
  state : EmailState
  err : Option PyError
  actions : List TransportAction
deriving Repr

/-- Append `repr(self)` to `self.sent_messages`. -/
def EmailState.pushHistory (st : EmailState) : EmailState :=
  ⟨st.from_, st.to_, st.cc, st.bcc, st.server, st.port, st.password, st.subject,
   st.body, st.attachments, st.message, st.sent_messages ++ [emailRepr st]⟩

/-- Replace the composed message of a state. -/
def EmailState.setMessage (st : EmailState) (doc : MimeDoc) : EmailState :=
  ⟨st.from_, st.to_, st.cc, st.bcc, st.server, st.port, st.password, st.subject,
   st.body, st.attachments, Option.some doc, st.sent_messages⟩

/-- `Email.send`: compose (`generate_email`), open the authenticated session
(`get_session`), set the To/Cc/Bcc headers and accumulate the raw envelope
recipients, transmit, quit, and only then append to `sent_messages`. Any
failure propagates and skips every later step. -/
def send (env : Env) (st : EmailState) : SendResult :=
  match generate_email env.fs st with
  | (st1, Option.some e) => ⟨st1, Option.some e, []⟩
  | (st1, Option.none) =>
    match get_session env st1 with
    | (acts, Option.some e) => ⟨st1, Option.some e, acts⟩
    | (acts, Option.none) =>
      let doc := st1.message.getD ⟨[], []⟩
      let doc2 : MimeDoc := ⟨doc.headers ++ recipHeaders st1, doc.parts⟩
      let st2 := st1.setMessage doc2
      let recips := envelopeRecipients st1
      if env.sendOk = true then
        ⟨st2.pushHistory, Option.none,
         acts ++ [TransportAction.sendmail st1.from_ recips doc2.asString,
                  TransportAction.quit]⟩
      else
        ⟨st2, Option.some PyError.smtpError,
         acts ++ [TransportAction.sendmail st1.from_ recips doc2.asString]⟩

/-- Locate the recipients argument of the first `sendmail` transport step. -/
def sendmailRecipients : List TransportAction → Option (List PyVal)
  | [] => Option.none
  | TransportAction.sendmail _ r _ :: _ => Option.some r
  | _ :: rest => sendmailRecipients rest

/-- The attachment parts of a part list: raw bytes and advertised filename. -/
def attachOf : MimePart → Option (List Nat × String)
  | MimePart.application content filename => Option.some (content, filename)
  | _ => Option.none

/-- The plain-text body payloads of a part list. -/
def textOf : MimePart → Option String
  | MimePart.text payload => Option.some payload
  | _ => Option.none

/-- Attachment parts of an optional document. -/
def docAttachParts : Option MimeDoc → List (List Nat × String)
  | Option.none => []
  | Option.some d => d.parts.filterMap attachOf

/-- Text body parts of an optional document. -/
def docTextParts : Option MimeDoc → List String
  | Option.none => []
  | Option.some d => d.parts.filterMap textOf

/-- Header fields of an optional document. -/
def docHeaders : Option MimeDoc → List (String × String)
  | Option.none => []
  | Option.some d => d.headers

/-! ### Helper lemmas -/

theorem splitChar_ne_nil (sep : Char) (l : List Char) : splitChar sep l ≠ [] := by
  induction l with
  | nil => simp [splitChar]
  | cons c rest ih =>
    simp only [splitChar]
    split
    · simp
    · split <;> simp

theorem splitChar_of_not_mem (sep : Char) (l : List Char) (h : sep ∉ l) :
    splitChar sep l = [l] := by
  induction l with
  | nil => rfl
  | cons c rest ih =>
    have hc : ¬c = sep := fun hh => h (hh ▸ List.mem_cons_self c rest)
    have hr : sep ∉ rest := fun hh => h (List.mem_cons_of_mem c hh)
    simp only [splitChar, if_neg hc, ih hr]

theorem splitChar_append_sep (sep : Char) (pre post : List Char) (h : sep ∉ pre) :
    splitChar sep (pre ++ sep :: post) = pre :: splitChar sep post := by
  induction pre with
  | nil => simp [splitChar]
  | cons c pre ih =>
    have hc : ¬c = sep := fun hh => h (hh ▸ List.mem_cons_self c pre)
    have hp : sep ∉ pre := fun hh => h (List.mem_cons_of_mem c hh)
    simp only [List.cons_append, splitChar, if_neg hc, List.append_eq, ih hp]

theorem splitChar_head (sep : Char) (l : List Char) :
    ∃ t, splitChar sep l = l.takeWhile (fun c => c != sep) :: t := by
  induction l with
  | nil => exact ⟨[], rfl⟩
  | cons c rest ih =>
    rcases ih with ⟨t, ht⟩
    by_cases hc : c = sep
    · subst hc
      refine ⟨splitChar c rest, ?_⟩
      simp [splitChar, List.takeWhile_cons]
    · refine ⟨t, ?_⟩
      simp only [splitChar, if_neg hc, ht, List.takeWhile_cons]
      simp [bne_iff_ne, hc]

/-! ### C10 -/

/-- C10: server-name derivation is partial. For an address containing `'@'`
(split as `pre ++ '@' :: post` with no `'@'` in `pre`), `get_server` returns
`"smtp."` concatenated with the text following the first `'@'` up to the next
`'@'`. For an address with no `'@'`, the split-index access fails with an
`IndexError`-class error. That failure is reachable from construction: with no
explicit server argument and a store holding neither a `from_` nor a `server`
value, constructing with a sender address containing no `'@'` fails with the
same error. -/
theorem c10_get_server_partial (pre post noat : List Char) (from_ : String)
    (to_ cc bcc : Recip) (port : Int) (password : Option String)
    (subject body : String) (attachments : Attach) (name : Option String)
    (save : Bool) (storePort : Option Int) (pwdStore : String → Option String)
    (promptResult : String) :
    ('@' ∉ pre →
      get_server (String.mk (pre ++ '@' :: post)) =
        Except.ok ("smtp." ++ String.mk (post.takeWhile (fun c => c != '@')))) ∧
    ('@' ∉ noat →
      get_server (String.mk noat) = Except.error PyError.indexError) ∧
    ('@' ∉ from_.toList →
      emailInit from_ to_ Option.none port password cc bcc subject body
        attachments name save ⟨Option.none, Option.none, storePort⟩ pwdStore
        promptResult = Except.error PyError.indexError) := by
  refine ⟨?_, ?_, ?_⟩
  · intro hpre
    rcases splitChar_head ('@') post with ⟨t, ht⟩
    unfold get_server
    rw [show (String.mk (pre ++ '@' :: post)).toList
          = pre ++ '@' :: post from rfl,
        splitChar_append_sep ('@') pre post hpre, ht]
  · intro hno
    unfold get_server
    rw [show (String.mk noat).toList = noat from rfl,
        splitChar_of_not_mem ('@') noat hno]
  · intro hfrom
    have hgs : get_server from_ = Except.error PyError.indexError := by
      unfold get_server
      rw [splitChar_of_not_mem ('@') from_.toList hfrom]
    unfold emailInit resolveServer
    simp [optStrTruthy, hgs]

/-- Witness for C10 at concrete inputs: `"me@x.com"` maps to `"smtp.x.com"`,
an address without `'@'` raises, and the raise is reachable from a
construction with no explicit server and an empty store. -/
theorem c10_witness :
    get_server (String.mk ("me".toList ++ '@' :: "x.com".toList)) =
      Except.ok "smtp.x.com" ∧
    get_server (String.mk "noat".toList) = Except.error PyError.indexError ∧
    emailInit "noat" Recip.none Option.none 465 (Option.some "pw") Recip.none
      Recip.none "" "" Attach.none Option.none false
      ⟨Option.none, Option.none, Option.none⟩ (fun _ => Option.none) "PROMPT" =
      Except.error PyError.indexError := by
  have h := c10_get_server_partial "me".toList "x.com".toList "noat".toList
    "noat" Recip.none Recip.none Recip.none 465 (Option.some "pw") "" ""
    Attach.none Option.none false Option.none (fun _ => Option.none) "PROMPT"
  refine ⟨?_, h.2.1 (by decide), h.2.2 (by decide)⟩
  rw [h.1 (by decide)]
  rfl

/-! ### Field characterization of a successful construction -/

theorem emailInit_fields (from_ : String) (to_ : Recip) (server : Option String)
    (port : Int) (password : Option String) (cc bcc : Recip)
    (subject body : String) (attachments : Attach) (name : Option String)
    (save : Bool) (store : StoreData) (pwdStore : String → Option String)
    (promptResult : String) (st : EmailState) (store2 : StoreData)
    (pwd2 : String → Option String)
    (h : emailInit from_ to_ server port password cc bcc subject body attachments
      name save store pwdStore promptResult = Except.ok (st, store2, pwd2)) :
    st.from_ = store.from_.getD from_ ∧
    st.port = store.port.getD port ∧
    st.attachments = attachInit attachments ∧
    st.sent_messages = [] ∧
    (optStrTruthy server = true → st.server = server.getD "") := by
  unfold emailInit at h
  split at h
  · exact Except.noConfusion h
  next server_r heq =>
    split at h
    · exact Except.noConfusion h
    next password_r heq2 =>
      split at h
      · exact Except.noConfusion h
      next store2x pwd2x heq3 =>
        injection h with h1
        rw [Prod.mk.injEq] at h1
        obtain ⟨hst, -⟩ := h1
        subst hst
        refine ⟨rfl, rfl, rfl, rfl, ?_⟩
        intro htr
        unfold resolveServer at heq
        rw [if_pos htr] at heq
        injection heq with hsr
        exact hsr.symm

/-! ### C1 -/

/-- C1 fails for `port`: constructing with explicit `port = 587` while the
store holds `port = 465` under the `'email'` section yields a client whose
port is the STORED value 465, not the explicit argument. -/
theorem c1_port_counterexample :
    initPort (emailInit "me@x.com" Recip.none (Option.some "smtp.x.com") 587
      (Option.some "pw") Recip.none Recip.none "" "" Attach.none Option.none false
      ⟨Option.none, Option.none, Option.some 465⟩ (fun _ => Option.none) "PROMPT") =
      Option.some 465 ∧ (465 : Int) ≠ 587 := ⟨rfl, by decide⟩

/-- C1 (amended): for every successful construction, `from_` AND `port` take
the stored profile value first, falling back to the explicit constructor
argument; only `server` prefers a truthy explicit argument over the stored
value. -/
theorem c1_field_precedence (from_ : String) (to_ : Recip) (server : Option String)
    (port : Int) (password : Option String) (cc bcc : Recip)
    (subject body : String) (attachments : Attach) (name : Option String)
    (save : Bool) (store : StoreData) (pwdStore : String → Option String)
    (promptResult : String) (st : EmailState) (store2 : StoreData)
    (pwd2 : String → Option String)
    (h : emailInit from_ to_ server port password cc bcc subject body attachments
      name save store pwdStore promptResult = Except.ok (st, store2, pwd2)) :
    st.from_ = store.from_.getD from_ ∧
    st.port = store.port.getD port ∧
    (optStrTruthy server = true → st.server = server.getD "") := by
  have hf := emailInit_fields from_ to_ server port password cc bcc subject body
    attachments name save store pwdStore promptResult st store2 pwd2 h
  exact ⟨hf.1, hf.2.1, hf.2.2.2.2⟩

/-- The state produced by the C1 witness construction. -/
def c1wState : EmailState :=
  ⟨"stored@x.com", Recip.none, Recip.none, Recip.none, "smtp.arg.com", 25, "pw",
   "", "", Attach.list [], Option.none, []⟩

/-- The profile store of the C1 witness construction. -/
def c1wStore : StoreData :=
  ⟨Option.some "stored@x.com", Option.some "smtp.stored.com", Option.some 25⟩

/-- Witness for C1 at a concrete construction: stored `from_`/`port` win,
explicit `server` wins. -/
theorem c1_witness :
    c1wState.from_ = "stored@x.com" ∧ c1wState.port = 25 ∧
    c1wState.server = "smtp.arg.com" := by
  have h := c1_field_precedence "arg@y.com" Recip.none (Option.some "smtp.arg.com")
    587 (Option.some "pw") Recip.none Recip.none "" "" Attach.none Option.none
    false c1wStore (fun _ => Option.none) "PROMPT" c1wState c1wStore
    (fun _ => Option.none) (by rfl)
  exact ⟨h.1.trans (by rfl), h.2.1.trans (by rfl), (h.2.2 (by rfl)).trans (by rfl)⟩

/-! ### C2 -/

/-- C2: constructing with no explicit password and no profile name does NOT
consult the secret store under `'_email'` — the key concatenation
`name + '_' + msg` with `name = None` raises a `TypeError` first, even when
the secret store holds an entry under `'_email'`. -/
theorem c2_default_profile_password_typeerror :
    emailInit "me@x.com" Recip.none (Option.some "smtp.x.com") 465 Option.none
      Recip.none Recip.none "" "" Attach.none Option.none false
      ⟨Option.none, Option.none, Option.none⟩
      (fun k => if k = "_email" then Option.some "storedpw" else Option.none)
      "PROMPT" = Except.error PyError.typeError := by rfl

/-! ### C7 -/

/-- C7 fails at construction time: passing the single path string
`"file1.txt"` leaves the `attachments` attribute as that bare string, not a
one-element list. -/
theorem c7_counterexample :
    initAttachField (emailInit "me@x.com" Recip.none (Option.some "smtp.x.com")
      465 (Option.some "pw") Recip.none Recip.none "" "" (Attach.str "file1.txt")
      Option.none false ⟨Option.none, Option.none, Option.none⟩
      (fun _ => Option.none) "PROMPT") = Option.some (Attach.str "file1.txt") ∧
    Attach.isList (Attach.str "file1.txt") = false := ⟨rfl, rfl⟩

theorem attachInit_compose_isList (fs : String → Option (List Nat))
    (st : EmailState) (a : Attach) (ha : st.attachments = attachInit a) :
    Attach.isList (generate_email fs st).1.attachments = true := by
  have hshape : (generate_email fs st).1.attachments =
      (if st.attachments.truthy = true then attachNormalize st.attachments
       else st.attachments) := by
    by_cases ht : st.attachments.truthy = true <;>
      simp [generate_email, add_attachments, ht, EmailState.withCompose]
  rw [hshape, ha]
  cases a with
  | none => rfl
  | str s =>
    by_cases hs : s = "" <;>
      simp [attachInit, hs, Attach.truthy, attachNormalize, Attach.isList]
  | list l =>
    by_cases hl : l.isEmpty <;>
      simp [attachInit, hl, Attach.truthy, attachNormalize, Attach.isList]

/-- C7 (amended): after construction the `attachments` attribute is
list-shaped for every input shape EXCEPT a single non-empty path string,
which is stored as the bare string itself; it is only normalized to a
one-element list when the message is composed, so after any
`generate_email` the attribute is always list-shaped. -/
theorem c7_attachments_shape (fs : String → Option (List Nat)) (from_ : String)
    (to_ : Recip) (server : Option String) (port : Int) (password : Option String)
    (cc bcc : Recip) (subject body : String) (attachments : Attach)
    (name : Option String) (save : Bool) (store : StoreData)
    (pwdStore : String → Option String) (promptResult : String) (st : EmailState)
    (store2 : StoreData) (pwd2 : String → Option String)
    (h : emailInit from_ to_ server port password cc bcc subject body attachments
      name save store pwdStore promptResult = Except.ok (st, store2, pwd2)) :
    (Attach.isList st.attachments = true ∨ st.attachments = attachments) ∧
    Attach.isList (generate_email fs st).1.attachments = true := by
  have hf := emailInit_fields from_ to_ server port password cc bcc subject body
    attachments name save store pwdStore promptResult st store2 pwd2 h
  have ha : st.attachments = attachInit attachments := hf.2.2.1
  refine ⟨?_, attachInit_compose_isList fs st attachments ha⟩
  rw [ha]
  cases attachments with
  | none => exact Or.inl rfl
  | str s =>
    by_cases hs : s = ""
    · exact Or.inl (by simp [attachInit, hs, Attach.isList])
    · exact Or.inr (by simp [attachInit, hs])
  | list l =>
    refine Or.inl ?_
    by_cases hl : l.isEmpty <;> simp [attachInit, hl, Attach.isList]

/-- The state produced by the C7 witness construction. -/
def c7wState : EmailState :=
  ⟨"me@x.com", Recip.none, Recip.none, Recip.none, "smtp.x.com", 465, "pw", "",
   "", Attach.str "f.txt", Option.none, []⟩

/-- The filesystem of the C7 witness. -/
def c7wFs : String → Option (List Nat) := fun _ => Option.some []

/-- Witness for C7 (amended) at a concrete construction passing the single
path string `"f.txt"`. -/
theorem c7_witness :
    (Attach.isList c7wState.attachments = true ∨
      c7wState.attachments = Attach.str "f.txt") ∧
    Attach.isList (generate_email c7wFs c7wState).1.attachments = true :=
  c7_attachments_shape c7wFs "me@x.com" Recip.none (Option.some "smtp.x.com") 465
    (Option.some "pw") Recip.none Recip.none "" "" (Attach.str "f.txt")
    Option.none false ⟨Option.none, Option.none, Option.none⟩
    (fun _ => Option.none) "PROMPT" c7wState ⟨Option.none, Option.none, Option.none⟩
    (fun _ => Option.none) (by rfl)

/-! ### C5 -/

/-- C5: for every state and environment, `get_session` ends in the
unbound-variable-class error exactly when the port is neither 465 nor 587;
in that case no transport step is performed (no session is produced). -/
theorem c5_unsupported_port (env : Env) (st : EmailState) :
    ((get_session env st).2 = Option.some PyError.unboundLocalError ↔
      (st.port ≠ 465 ∧ st.port ≠ 587)) ∧
    (st.port ≠ 465 → st.port ≠ 587 →
      get_session env st = ([], Option.some PyError.unboundLocalError)) := by
  rcases env with ⟨fs, cOk, lOk, sOk⟩
  by_cases h1 : st.port = 465 <;> by_cases h2 : st.port = 587 <;>
    cases cOk <;> cases lOk <;>
      simp [get_session, h1, h2]

/-- The environment of the C5/C6 witnesses. -/
def c5wEnv : Env := ⟨fun _ => Option.none, true, true, true⟩

/-- A state with the unsupported port 999. -/
def c5wState : EmailState :=
  ⟨"me@x.com", Recip.none, Recip.none, Recip.none, "smtp.x.com", 999, "pw", "",
   "", Attach.list [], Option.none, []⟩

/-- Witness for C5: at port 999 the session attempt performs no transport
step and fails with the unbound-variable-class error. -/
theorem c5_witness :
    get_session c5wEnv c5wState = ([], Option.some PyError.unboundLocalError) :=
  (c5_unsupported_port c5wEnv c5wState).2 (by decide) (by decide)

/-! ### C6 -/

/-- C6: transport selection depends only on the port. With `port = 465` the
trace never contains a STARTTLS step, in any environment; with `port = 587`
and a reachable server the trace is exactly greeting, STARTTLS, greeting,
followed by authentication with `from_` and the password. -/
theorem c6_transport_selection (env : Env) (st : EmailState) :
    (st.port = 465 → TransportAction.starttls ∉ (get_session env st).1) ∧
    (st.port = 587 → env.connectOk = true →
      (get_session env st).1 =
        [TransportAction.connectPlain st.server st.port, TransportAction.ehlo,
         TransportAction.starttls, TransportAction.ehlo,
         TransportAction.login st.from_ st.password]) := by
  rcases env with ⟨fs, cOk, lOk, sOk⟩
  constructor
  · intro h465
    cases cOk <;> cases lOk <;>
      simp [get_session, get_ssl, h465]
  · intro h587 hc
    have h465 : ¬st.port = 465 := by rw [h587]; decide
    cases lOk <;>
      simp_all [get_session, get_tls, h587, h465]

/-- A state with port 587 for the C6 witness. -/
def c6wState : EmailState :=
  ⟨"me@x.com", Recip.none, Recip.none, Recip.none, "smtp.x.com", 587, "pw", "",
   "", Attach.list [], Option.none, []⟩

/-- Witness for C6: at port 587 with a reachable server the full
greeting/STARTTLS/greeting/login trace is produced. -/
theorem c6_witness :
    (get_session c5wEnv c6wState).1 =
      [TransportAction.connectPlain "smtp.x.com" 587, TransportAction.ehlo,
       TransportAction.starttls, TransportAction.ehlo,
       TransportAction.login "me@x.com" "pw"] :=
  (c6_transport_selection c5wEnv c6wState).2 rfl rfl

/-! ### C3 -/

theorem generate_email_sent_messages (fs : String → Option (List Nat))
    (st : EmailState) :
    (generate_email fs st).1.sent_messages = st.sent_messages := by
  simp [generate_email, EmailState.withCompose]

/-- C3: `send` appends exactly one entry to `sent_messages` when it returns
without error, and zero entries when any step fails (attachment read during
composition, connection, authentication, transmission, or the unbound-session
error), the error being propagated in the result. -/
theorem c3_history (env : Env) (st : EmailState) :
    ((send env st).err = Option.none →
      (send env st).state.sent_messages =
        st.sent_messages ++ [emailRepr (send env st).state]) ∧
    (∀ e, (send env st).err = Option.some e →
      (send env st).state.sent_messages = st.sent_messages) := by
  have hgen := generate_email_sent_messages env.fs st
  rcases hg : generate_email env.fs st with ⟨st1, e1⟩
  rw [hg] at hgen
  simp only at hgen
  cases e1 with
  | some e => simp [send, hg, hgen]
  | none =>
    rcases hs : get_session env st1 with ⟨acts, e2⟩
    cases e2 with
    | some e => simp [send, hg, hs, hgen]
    | none =>
      cases hok : env.sendOk <;>
        simp [send, hg, hs, hok, hgen, EmailState.pushHistory,
          EmailState.setMessage, emailRepr]

/-- The environment of the C3 witness: everything succeeds. -/
def c3wEnv : Env := ⟨fun _ => Option.some [], true, true, true⟩

/-- The client state of the C3 witness. -/
def c3wState : EmailState :=
  ⟨"me@x.com", Recip.str "you@y.com", Recip.none, Recip.none, "smtp.x.com", 465,
   "pw", "Hi", "Hello", Attach.list [], Option.none, []⟩

/-- Witness for C3 on a fully successful send: exactly one history entry. -/
theorem c3_witness :
    (send c3wEnv c3wState).state.sent_messages =
      c3wState.sent_messages ++ [emailRepr (send c3wEnv c3wState).state] :=
  (c3_history c3wEnv c3wState).1 (by rfl)

/-! ### C4 -/

/-- The environment of the C4 scenario: everything succeeds. -/
def c4Env : Env := ⟨fun _ => Option.some [], true, true, true⟩

/-- The C4 scenario state: `to=["a@x.com","b@y.com"]`, `cc="c@x.com"`. -/
def c4State : EmailState :=
  ⟨"me@x.com", Recip.list ["a@x.com", "b@y.com"], Recip.str "c@x.com", Recip.none,
   "smtp.x.com", 465, "pw", "", "", Attach.list [], Option.none, []⟩

/-- C4 fails for the envelope: in the scenario `to=["a@x.com","b@y.com"]`,
`cc="c@x.com"`, the recipients handed to `sendmail` are the MIXED list
`[["a@x.com","b@y.com"], "c@x.com"]` (a list alongside a string), not the
flattened set of three address strings. -/
theorem c4_counterexample :
    sendmailRecipients (send c4Env c4State).actions =
      Option.some [PyVal.list ["a@x.com", "b@y.com"], PyVal.str "c@x.com"] ∧
    sendmailRecipients (send c4Env c4State).actions ≠
      Option.some [PyVal.str "a@x.com", PyVal.str "b@y.com", PyVal.str "c@x.com"] := by
  refine ⟨rfl, ?_⟩
  decide

/-- C4 (amended): in the scenario the To header is the joined string
`"a@x.com, b@y.com"` and the Cc header is `"c@x.com"`, but the transport is
handed the raw two-element mixed recipients list (the literal `to` list next
to the `cc` string), not a flattened set of address strings. -/
theorem c4_headers_and_envelope :
    docHeaders (send c4Env c4State).state.message =
      [("From", "me@x.com"), ("Subject", ""), ("To", "a@x.com, b@y.com"),
       ("Cc", "c@x.com")] ∧
    sendmailRecipients (send c4Env c4State).actions =
      Option.some [PyVal.list ["a@x.com", "b@y.com"], PyVal.str "c@x.com"] :=
  ⟨rfl, rfl⟩

/-! ### C8 and C9: composition lemmas -/

theorem attachLoop_ok (fs : String → Option (List Nat)) (items : List String) :
    ∀ (doc : MimeDoc) (n : Nat), (∀ i ∈ items, (fs i).isSome = true) →
    attachLoop fs items doc n =
      (⟨doc.headers,
        doc.parts ++ items.map (fun i => MimePart.application ((fs i).getD []) i)⟩,
       n + items.length, Option.none) := by
  induction items with
  | nil => intro doc n _; simp [attachLoop]
  | cons i rest ih =>
    intro doc n h
    have hi : (fs i).isSome = true := h i (by simp)
    rcases Option.isSome_iff_exists.mp hi with ⟨c, hc⟩
    have hrest : ∀ j ∈ rest, (fs j).isSome = true :=
      fun j hj => h j (by simp [hj])
    simp only [attachLoop, hc]
    rw [ih ⟨doc.headers, doc.parts ++ [MimePart.application c i]⟩ (n + 1) hrest]
    simp [hc, List.append_assoc]
    omega

theorem attachLoop_textParts (fs : String → Option (List Nat))
    (items : List String) :
    ∀ (doc : MimeDoc) (n : Nat),
    ((attachLoop fs items doc n).1).parts.filterMap textOf =
      doc.parts.filterMap textOf := by
  induction items with
  | nil => intro doc n; rfl
  | cons i rest ih =>
    intro doc n
    cases hc : fs i with
    | none => simp [attachLoop, hc]
    | some c => simp [attachLoop, hc, ih, textOf]

theorem header_body_textParts (st : EmailState) :
    (add_body st (add_header st ⟨[], []⟩)).parts.filterMap textOf =
      (if st.body = "" then [] else [st.body]) := by
  unfold add_body add_header
  by_cases h : st.body = "" <;> simp [h, textOf]

theorem header_body_attachParts (st : EmailState) :
    (add_body st (add_header st ⟨[], []⟩)).parts.filterMap attachOf = [] := by
  unfold add_body add_header
  by_cases h : st.body = "" <;> simp [h, attachOf]

theorem filterMap_attachOf_map (fs : String → Option (List Nat))
    (items : List String) :
    List.filterMap (attachOf ∘ fun i => MimePart.application ((fs i).getD []) i)
      items = items.map (fun i => ((fs i).getD [], i)) := by
  induction items with
  | nil => rfl
  | cons i rest ih => simp [attachOf, ih]

/-! ### C8 -/

/-- C8: composing with a non-empty list of attachment paths whose files are
all readable succeeds and produces a document whose attachment parts are, in
order, exactly one per path, each carrying the exact byte content of its
source file (and the literal path as filename); in particular there are
exactly `len(attachments)` attachment parts. -/
theorem c8_attachment_parts (fs : String → Option (List Nat)) (st : EmailState)
    (items : List String) (hatt : st.attachments = Attach.list items)
    (hne : items ≠ []) (hread : ∀ i ∈ items, (fs i).isSome = true) :
    (generate_email fs st).2 = Option.none ∧
    docAttachParts (generate_email fs st).1.message =
      items.map (fun i => ((fs i).getD [], i)) ∧
    (docAttachParts (generate_email fs st).1.message).length = items.length := by
  have htr : st.attachments.truthy = true := by
    rw [hatt]
    cases items with
    | nil => exact absurd rfl hne
    | cons a l => rfl
  have hnorm : attachNormalize st.attachments = Attach.list items := by
    rw [hatt]; rfl
  have hitems : attachItems (attachNormalize st.attachments) = items := by
    rw [hnorm]; rfl
  have hloop := attachLoop_ok fs items (add_body st (add_header st ⟨[], []⟩)) 0 hread
  refine ⟨?_, ?_, ?_⟩
  · simp [generate_email, add_attachments, htr, hitems, hloop]
  · simp [generate_email, add_attachments, htr, hitems, hloop,
      EmailState.withCompose, docAttachParts, List.filterMap_append,
      header_body_attachParts, filterMap_attachOf_map]
  · simp [generate_email, add_attachments, htr, hitems, hloop,
      EmailState.withCompose, docAttachParts, List.filterMap_append,
      header_body_attachParts, filterMap_attachOf_map, attachOf]

/-- The filesystem of the C8 witness: two readable files. -/
def c8wFs : String → Option (List Nat) :=
  fun s => if s = "f1" then Option.some [1, 2]
           else if s = "f2" then Option.some [3] else Option.none

/-- The client state of the C8 witness: two attachments. -/
def c8wState : EmailState :=
  ⟨"me@x.com", Recip.none, Recip.none, Recip.none, "smtp.x.com", 465, "pw", "",
   "Hello", Attach.list ["f1", "f2"], Option.none, []⟩

/-- Witness for C8: composing with attachments `["f1", "f2"]` yields exactly
the two attachment parts with the files' exact bytes. -/
theorem c8_witness :
    (generate_email c8wFs c8wState).2 = Option.none ∧
    docAttachParts (generate_email c8wFs c8wState).1.message =
      [([1, 2], "f1"), ([3], "f2")] := by
  have h := c8_attachment_parts c8wFs c8wState ["f1", "f2"] rfl (by decide)
    (by decide)
  exact ⟨h.1, h.2.1.trans (by decide)⟩

/-! ### C9 -/

/-- C9: for every state and filesystem, the composed document has zero
plain-text body parts when the body is the empty string, and exactly one
plain-text part whose payload is exactly the body string otherwise. -/
theorem c9_body_parts (fs : String → Option (List Nat)) (st : EmailState) :
    docTextParts (generate_email fs st).1.message =
      (if st.body = "" then [] else [st.body]) := by
  rw [show docTextParts (generate_email fs st).1.message =
      ((generate_email fs st).1.message.getD ⟨[], []⟩).parts.filterMap textOf by
    simp [generate_email, EmailState.withCompose, docTextParts]]
  by_cases htr : st.attachments.truthy = true
  · simp [generate_email, add_attachments, htr, EmailState.withCompose,
      attachLoop_textParts, header_body_textParts]
  · simp [generate_email, add_attachments, htr, EmailState.withCompose,
      header_body_textParts]

end Messages
